import Mathlib

/-!
Verification of the hostess actor of the Air Lift simulation
(`src/semSharedMemHostess.c`).

The development shallowly embeds:
* the shared flight state `FSt` and the bodies of the critical sections of
  the four hostess operations (`waitForNextFlight`, `waitForPassenger`,
  `checkPassport`, `signalReadyToFlight`) as pure functions;
* the sequence of semaphore operations, shared-state writes and logging
  calls each operation performs, as explicit action traces;
* the hostess main loop interleaved with the external pilot/passenger
  actors as a small-step transition system, over which the protocol
  invariants are proved.

C `int` counters are modelled as `Int`; SysV semaphore values as `Nat`.
-/

/-- Compile-time constants from `probConst.h` (not part of the hostess
source file): total number of passengers `N`, minimum flight capacity
`MINFC`, maximum flight capacity `MAXFC`. -/
structure Config where
  N : Int
  MINFC : Int
  MAXFC : Int

/-- Hostess states stored in `sh->fSt.st.hostessStat`. -/
inductive HostessStat where
  | WAIT_FOR_FLIGHT
  | WAIT_FOR_PASSENGER
  | CHECK_PASSPORT
  | READY_TO_FLIGHT
  deriving DecidableEq, Repr

/-- Shared flight state `sh->fSt` (the fields the hostess reads or
writes).  `nPassengersInFlight` is the per-flight record array, indexed
in the source by `nFlight-1`; it is modelled as a total function from
the `Int` index. -/
structure FSt where
  hostessStat : HostessStat
  nPassInQueue : Int
  nPassInFlight : Int
  totalPassBoarded : Int
  nFlight : Int
  nPassengersInFlight : Int → Int
  finished : Bool

/-- Getter `nPassengersInFlight()` of the source (returns
`sh->fSt.nPassInFlight`). -/
def nPassengersInFlightFn (s : FSt) : Int :=
  s.nPassInFlight

/-- Getter `nPassengersInQueue()` of the source (returns
`sh->fSt.nPassInQueue`). -/
def nPassengersInQueueFn (s : FSt) : Int :=
  s.nPassInQueue

/-- Critical section of `waitForNextFlight` (lines 150-151): set the
hostess state to `WAIT_FOR_FLIGHT`. -/
def waitForNextFlightCS (s : FSt) : FSt :=
  { s with hostessStat := .WAIT_FOR_FLIGHT }

/-- Critical section of `waitForPassenger` (lines 179-180): set the
hostess state to `WAIT_FOR_PASSENGER`. -/
def waitForPassengerCS (s : FSt) : FSt :=
  { s with hostessStat := .WAIT_FOR_PASSENGER }

/-- First critical section of `checkPassport` (lines 216-217): set the
hostess state to `CHECK_PASSPORT`. -/
def checkPassportCS1 (s : FSt) : FSt :=
  { s with hostessStat := .CHECK_PASSPORT }

/-- Second critical section of `checkPassport` (lines 234-243): decrement
`nPassInQueue`, increment `nPassInFlight`, increment `totalPassBoarded`,
then compute `last` from the just-updated values exactly as the source
does (lines 238-240). -/
def checkPassportCS2 (cfg : Config) (s : FSt) : FSt × Bool :=
  let s1 : FSt := { s with nPassInQueue := s.nPassInQueue - 1 }
  let s2 : FSt := { s1 with nPassInFlight := s1.nPassInFlight + 1 }
  let s3 : FSt := { s2 with totalPassBoarded := s2.totalPassBoarded + 1 }
  let last : Bool :=
    (nPassengersInFlightFn s3 == cfg.MAXFC)
      || (decide (cfg.MINFC ≤ nPassengersInFlightFn s3)
            && (nPassengersInQueueFn s3 == 0))
      || (s3.totalPassBoarded == cfg.N)
  (s3, last)

/-- Critical section of `signalReadyToFlight` (lines 282-286): set the
hostess state to `READY_TO_FLIGHT`, record the current flight count at
array index `nFlight-1`, and set `finished` to the test
`totalPassBoarded == N`. -/
def signalReadyToFlightCS (cfg : Config) (s : FSt) : FSt :=
  { s with
      hostessStat := .READY_TO_FLIGHT
      nPassengersInFlight :=
        Function.update s.nPassengersInFlight (s.nFlight - 1) s.nPassInFlight
      finished := (s.totalPassBoarded == cfg.N) }

/-- Constants N=10, MINFC=3, MAXFC=5 of the concrete scenario used in
the specification. -/
def cfg10 : Config := ⟨10, 3, 5⟩

/-- State right before the 2nd passport check of flight 3 in the
scenario N=10, MINFC=3, MAXFC=5: flights of 5 and 3 passengers have
departed, one passenger of the last two has boarded, one remains. -/
def flight3Before2nd : FSt :=
  { hostessStat := .CHECK_PASSPORT
    nPassInQueue := 1
    nPassInFlight := 1
    totalPassBoarded := 9
    nFlight := 3
    nPassengersInFlight :=
      Function.update (Function.update (fun _ => 0) 0 5) 1 3
    finished := false }

/-- Claim C1: the boolean `checkPassport` returns equals the disjunction
`nPassInFlight == MAXFC || (nPassInFlight >= MINFC && nPassInQueue == 0)
|| totalPassBoarded == N` evaluated on the values produced by the same
critical section's updates (post-decrement of the queue, post-increment
of the flight and total counters); in particular, with N=10, MINFC=3,
MAXFC=5 and flight 3 holding the last 2 passengers, the 2nd check-in of
that flight returns `true` even though its flight count 2 is below
MINFC. -/
theorem checkPassport_last_matches_post_updates (cfg : Config) (s : FSt) :
    ((checkPassportCS2 cfg s).2 =
      (((checkPassportCS2 cfg s).1.nPassInFlight == cfg.MAXFC)
        || (decide (cfg.MINFC ≤ (checkPassportCS2 cfg s).1.nPassInFlight)
              && ((checkPassportCS2 cfg s).1.nPassInQueue == 0))
        || ((checkPassportCS2 cfg s).1.totalPassBoarded == cfg.N)))
    ∧ (checkPassportCS2 cfg10 flight3Before2nd).2 = true
    ∧ (checkPassportCS2 cfg10 flight3Before2nd).1.nPassInFlight < cfg10.MINFC :=
  ⟨rfl, by decide, by decide⟩

/-- Claim C2: the second critical section of `checkPassport` decrements
`nPassInQueue` by exactly 1, increments `nPassInFlight` by exactly 1,
increments `totalPassBoarded` by exactly 1, and leaves every other field
of the shared state unchanged. -/
theorem checkPassport_counter_updates (cfg : Config) (s : FSt) :
    ((checkPassportCS2 cfg s).1.nPassInQueue = s.nPassInQueue - 1)
    ∧ ((checkPassportCS2 cfg s).1.nPassInFlight = s.nPassInFlight + 1)
    ∧ ((checkPassportCS2 cfg s).1.totalPassBoarded = s.totalPassBoarded + 1)
    ∧ ((checkPassportCS2 cfg s).1.hostessStat = s.hostessStat)
    ∧ ((checkPassportCS2 cfg s).1.nFlight = s.nFlight)
    ∧ ((checkPassportCS2 cfg s).1.nPassengersInFlight = s.nPassengersInFlight)
    ∧ ((checkPassportCS2 cfg s).1.finished = s.finished) :=
  ⟨rfl, rfl, rfl, rfl, rfl, rfl, rfl⟩

/-- Claim C10: `signalReadyToFlight` writes only the hostess state, the
per-flight record entry at index `nFlight-1`, and the `finished` flag;
it leaves `nPassInQueue`, `nPassInFlight`, `totalPassBoarded` and
`nFlight` unchanged — in particular it neither resets the current-flight
count to zero nor advances the flight index. -/
theorem signalReadyToFlight_frame (cfg : Config) (s : FSt) :
    ((signalReadyToFlightCS cfg s).hostessStat = .READY_TO_FLIGHT)
    ∧ ((signalReadyToFlightCS cfg s).nPassengersInFlight =
        Function.update s.nPassengersInFlight (s.nFlight - 1) s.nPassInFlight)
    ∧ ((signalReadyToFlightCS cfg s).finished = (s.totalPassBoarded == cfg.N))
    ∧ ((signalReadyToFlightCS cfg s).nPassInQueue = s.nPassInQueue)
    ∧ ((signalReadyToFlightCS cfg s).nPassInFlight = s.nPassInFlight)
    ∧ ((signalReadyToFlightCS cfg s).totalPassBoarded = s.totalPassBoarded)
    ∧ ((signalReadyToFlightCS cfg s).nFlight = s.nFlight) :=
  ⟨rfl, rfl, rfl, rfl, rfl, rfl, rfl⟩

/-- The five channel semaphores of `SHARED_DATA` the hostess touches. -/
inductive Chan where
  | readyForBoarding
  | passengersInQueue
  | passengersWaitInQueue
  | idShown
  | readyToFlight
  deriving DecidableEq, Repr

/-- Target of a semaphore operation: the mutual-exclusion semaphore
`sh->mutex` or one of the five channels. -/
inductive SemTarget where
  | mutex
  | chan (c : Chan)
  deriving DecidableEq, Repr

/-- Shared-state fields the hostess writes. -/
inductive WField where
  | hostessStat
  | nPassInQueue
  | nPassInFlight
  | totalPassBoarded
  | nPassengersInFlightArr
  | finished
  deriving DecidableEq, Repr

/-- Logging collaborator calls. -/
inductive LogKind where
  | saveState
  | savePassengerChecked
  | saveFlightDeparted
  deriving DecidableEq, Repr

/-- One action of a hostess operation, in program order: a semaphore
down or up (with the flag telling whether the source checks the return
value and exits on failure), a shared-state write, or a logging call. -/
inductive OpAct where
  | semDown (t : SemTarget) (exitsOnError : Bool)
  | semUp (t : SemTarget) (exitsOnError : Bool)
  | write (f : WField)
  | logCall (l : LogKind)
  deriving DecidableEq, Repr

/-- Action trace of `waitForNextFlight` (lines 144-160): the mutex
operations are checked (`perror` + `exit`), the final blocking down on
`readyForBoarding` (line 160) ignores its return value. -/
def waitForNextFlightActs : List OpAct :=
  [.semDown .mutex true,
   .write .hostessStat,
   .logCall .saveState,
   .semUp .mutex true,
   .semDown (.chan .readyForBoarding) false]

/-- Action trace of `waitForPassenger` (lines 172-188): the blocking
down on `passengersInQueue` (line 188) ignores its return value. -/
def waitForPassengerActs : List OpAct :=
  [.semDown .mutex true,
   .write .hostessStat,
   .logCall .saveState,
   .semUp .mutex true,
   .semDown (.chan .passengersInQueue) false]

/-- Action trace of `checkPassport` (lines 210-248): the up on
`passengersWaitInQueue` and the down on `idShown` (lines 225-226) ignore
their return values. -/
def checkPassportActs : List OpAct :=
  [.semDown .mutex true,
   .write .hostessStat,
   .logCall .saveState,
   .semUp .mutex true,
   .semUp (.chan .passengersWaitInQueue) false,
   .semDown (.chan .idShown) false,
   .semDown .mutex true,
   .write .nPassInQueue,
   .write .nPassInFlight,
   .write .totalPassBoarded,
   .logCall .savePassengerChecked,
   .logCall .saveState,
   .semUp .mutex true]

/-- Action trace of `signalReadyToFlight` (lines 276-294): the up on
`readyToFlight` (line 294) ignores its return value. -/
def signalReadyToFlightActs : List OpAct :=
  [.semDown .mutex true,
   .write .hostessStat,
   .write .nPassengersInFlightArr,
   .write .finished,
   .logCall .saveState,
   .logCall .saveFlightDeparted,
   .semUp .mutex true,
   .semUp (.chan .readyToFlight) false]

/-- All semaphore-touching traces of the hostess, in source order. -/
def hostessActs : List OpAct :=
  waitForNextFlightActs ++ waitForPassengerActs
    ++ checkPassportActs ++ signalReadyToFlightActs

/-- Scan of a trace tracking whether the mutex is held: the mutex is
acquired only when free and released only when held, no blocking down on
a channel happens while the mutex is held, and the trace ends with the
mutex free. -/
def lockScan : Bool → List OpAct → Bool
  | held, [] => !held
  | held, .semDown .mutex _ :: r => !held && lockScan true r
  | held, .semUp .mutex _ :: r => held && lockScan false r
  | held, .semDown (.chan _) _ :: r => !held && lockScan held r
  | held, .semUp (.chan _) _ :: r => lockScan held r
  | held, .write _ :: r => lockScan held r
  | held, .logCall _ :: r => lockScan held r

/-- Lock discipline of a whole operation, started with the mutex free. -/
def lockDisciplineOk (acts : List OpAct) : Bool :=
  lockScan false acts

/-- Scan checking that every shared-state write and every logging call
happens while the mutex is held. -/
def effectsScan : Bool → List OpAct → Bool
  | _, [] => true
  | _, .semDown .mutex _ :: r => effectsScan true r
  | _, .semUp .mutex _ :: r => effectsScan false r
  | held, .semDown (.chan _) _ :: r => effectsScan held r
  | held, .semUp (.chan _) _ :: r => effectsScan held r
  | held, .write _ :: r => held && effectsScan held r
  | held, .logCall _ :: r => held && effectsScan held r

/-- All writes and log calls of an operation happen under the mutex. -/
def effectsUnderLock (acts : List OpAct) : Bool :=
  effectsScan false acts

/-- Scan checking that every up on channel `c` happens while the mutex
is free and after at least one mutex release. -/
def raiseScan (c : Chan) : Bool → Bool → List OpAct → Bool
  | _, _, [] => true
  | _, rel, .semDown .mutex _ :: r => raiseScan c true rel r
  | _, _, .semUp .mutex _ :: r => raiseScan c false true r
  | held, rel, .semDown (.chan _) _ :: r => raiseScan c held rel r
  | held, rel, .semUp (.chan c2) _ :: r =>
      (c2 != c || (!held && rel)) && raiseScan c held rel r
  | held, rel, .write _ :: r => raiseScan c held rel r
  | held, rel, .logCall _ :: r => raiseScan c held rel r

/-- Every up on channel `c` happens only after the mutex was released. -/
def raisesAfterUnlock (c : Chan) (acts : List OpAct) : Bool :=
  raiseScan c false false acts

/-- Test for the up on the admit-from-queue channel. -/
def isAdmitUp (a : OpAct) : Bool :=
  match a with
  | .semUp (.chan .passengersWaitInQueue) _ => true
  | _ => false

/-- Test for the blocking down on the identity-shown channel. -/
def isIdShownDown (a : OpAct) : Bool :=
  match a with
  | .semDown (.chan .idShown) _ => true
  | _ => false

/-- Error-check flag of an action (semaphore operations carry the flag
telling whether the source tests the result and exits; other actions are
unconstrained, hence `true`). -/
def opErrorChecked (a : OpAct) : Bool :=
  match a with
  | .semDown _ e => e
  | .semUp _ e => e
  | .write _ => true
  | .logCall _ => true

/-- Whether a semaphore operation checks its result exactly when its
target is the mutex (other actions are unconstrained). -/
def opCheckedIffMutex (a : OpAct) : Bool :=
  match a with
  | .semDown t e => e == (t == .mutex)
  | .semUp t e => e == (t == .mutex)
  | .write _ => true
  | .logCall _ => true

/-- Claim C4: `signalReadyToFlight`, while holding the lock, sets the
hostess state to `READY_TO_FLIGHT`, records the per-flight entry of the
flight currently loading (array index `nFlight-1`) as `nPassInFlight`,
sets `finished` to `totalPassBoarded == N`, persists the state and a
flight-departed record, and only after releasing the lock raises the
`readyToFlight` channel. -/
theorem signalReadyToFlight_effects (cfg : Config) (s : FSt) :
    ((signalReadyToFlightCS cfg s).hostessStat = .READY_TO_FLIGHT)
    ∧ ((signalReadyToFlightCS cfg s).nPassengersInFlight (s.nFlight - 1) =
        s.nPassInFlight)
    ∧ ((signalReadyToFlightCS cfg s).finished = (s.totalPassBoarded == cfg.N))
    ∧ (signalReadyToFlightActs.count (OpAct.logCall .saveState) = 1)
    ∧ (signalReadyToFlightActs.count (OpAct.logCall .saveFlightDeparted) = 1)
    ∧ (effectsUnderLock signalReadyToFlightActs = true)
    ∧ (raisesAfterUnlock .readyToFlight signalReadyToFlightActs = true) :=
  ⟨rfl, Function.update_same _ _ _, rfl, by decide, by decide, by decide,
    by decide⟩

/-- Claim C8: in every hostess operation, every blocking wait on a
channel occurs while the mutual-exclusion lock is not held: the mutex is
acquired and released in strict alternation starting and ending free,
and no channel down sits between an acquire and the matching release. -/
theorem no_channel_wait_while_locked :
    (lockDisciplineOk waitForNextFlightActs = true)
    ∧ (lockDisciplineOk waitForPassengerActs = true)
    ∧ (lockDisciplineOk checkPassportActs = true)
    ∧ (lockDisciplineOk signalReadyToFlightActs = true) := by
  decide

/-- Claim C9: within `checkPassport`, the hostess raises the
admit-from-queue channel (`passengersWaitInQueue`) exactly once,
consumes the identity-shown channel (`idShown`) exactly once, and the
raise occurs strictly before the blocking consume. -/
theorem admit_before_idshown :
    (checkPassportActs.countP isAdmitUp = 1)
    ∧ (checkPassportActs.countP isIdShownDown = 1)
    ∧ (checkPassportActs.findIdx isAdmitUp < checkPassportActs.findIdx isIdShownDown) := by
  decide

/-- Claim C7 counterexample: it is not the case that every semaphore
acquire or release the hostess performs checks the primitive's result
and exits on failure — the channel operations (e.g. the down on
`readyForBoarding` at line 160) ignore the return value. -/
theorem semops_not_all_checked_cex :
    hostessActs.all opErrorChecked = false := by
  decide

/-- Claim C7 as amended: the hostess checks the primitive's result and
terminates with failure exactly for the operations on the
mutual-exclusion semaphore; every up or down on the five channels
ignores the primitive's result and execution continues. -/
theorem semops_checked_iff_mutex :
    hostessActs.all opCheckedIffMutex = true := by
  decide

/-- Control location of the hostess inside its main loop (lines
111-122): `atOuterTest` is the `while (nPassengers < N)` test,
`blocked…` locations sit at a blocking channel down, `at…` locations are
about to execute the named critical section, `done` is loop exit. -/
inductive HLoc where
  | atOuterTest
  | blockedBoardingAuth
  | atWaitForPassenger
  | blockedPassengerArrive
  | atCheckPassportCS1
  | blockedIdShown
  | atCheckPassportCS2
  | atSignalReady
  | done
  deriving DecidableEq, Repr

/-- Global configuration of the interleaved system: the shared flight
state, the five channel semaphore values, the hostess control location
and its local loop counter `nPassengers`, plus two history fields used
only by the statements (`checkCount` counts completed `checkPassport`
calls; `finishedWrites` records, for every write to `finished`, the
value of `totalPassBoarded` at the write together with the written
value). -/
structure Sys where
  fSt : FSt
  readyForBoarding : Nat
  passengersInQueue : Nat
  passengersWaitInQueue : Nat
  idShown : Nat
  readyToFlight : Nat
  loc : HLoc
  nPassengers : Int
  checkCount : Nat
  finishedWrites : List (Int × Bool)

/-- One atomic step of the hostess (lines 111-122 together with the
bodies of the four operations); `none` when the hostess is blocked on a
channel whose value is zero, or has exited its loop. -/
def hostessStep (cfg : Config) (s : Sys) : Option Sys :=
  match s.loc with
  | .atOuterTest =>
      if s.nPassengers < cfg.N then
        some { s with fSt := waitForNextFlightCS s.fSt, loc := .blockedBoardingAuth }
      else
        some { s with loc := .done }
  | .blockedBoardingAuth =>
      match s.readyForBoarding with
      | 0 => none
      | r + 1 => some { s with readyForBoarding := r, loc := .atWaitForPassenger }
  | .atWaitForPassenger =>
      some { s with fSt := waitForPassengerCS s.fSt, loc := .blockedPassengerArrive }
  | .blockedPassengerArrive =>
      match s.passengersInQueue with
      | 0 => none
      | r + 1 => some { s with passengersInQueue := r, loc := .atCheckPassportCS1 }
  | .atCheckPassportCS1 =>
      some { s with fSt := checkPassportCS1 s.fSt,
                    passengersWaitInQueue := s.passengersWaitInQueue + 1,
                    loc := .blockedIdShown }
  | .blockedIdShown =>
      match s.idShown with
      | 0 => none
      | r + 1 => some { s with idShown := r, loc := .atCheckPassportCS2 }
  | .atCheckPassportCS2 =>
      let r := checkPassportCS2 cfg s.fSt
      some { s with fSt := r.1,
                    nPassengers := s.nPassengers + 1,
                    checkCount := s.checkCount + 1,
                    loc := if r.2 then .atSignalReady else .atWaitForPassenger }
  | .atSignalReady =>
      let f := signalReadyToFlightCS cfg s.fSt
      some { s with fSt := f,
                    readyToFlight := s.readyToFlight + 1,
                    finishedWrites :=
                      s.finishedWrites ++ [(f.totalPassBoarded, f.finished)],
                    loc := .atOuterTest }
  | .done => none

/-- Modelled from the spec: a passenger (whose source is not part of the
hostess file) arrives at the airport — under the lock it increments the
shared `nPassInQueue` counter, then raises the `passengersInQueue`
channel. -/
def passengerArriveStep (s : Sys) : Option Sys :=
  some { s with fSt := { s.fSt with nPassInQueue := s.fSt.nPassInQueue + 1 },
                passengersInQueue := s.passengersInQueue + 1 }

/-- Modelled from the spec: the passenger admitted from the queue
consumes the `passengersWaitInQueue` channel and raises `idShown` once
it has presented its identity. -/
def passengerShowIdStep (s : Sys) : Option Sys :=
  match s.passengersWaitInQueue with
  | 0 => none
  | r + 1 => some { s with passengersWaitInQueue := r, idShown := s.idShown + 1 }

/-- Modelled from the spec: the pilot (whose source is not part of the
hostess file) consumes the `readyToFlight` channel raised by the
hostess, performs the between-flight reset — `nPassInFlight := 0` and
advance of `nFlight` — and raises `readyForBoarding` for the next
flight. -/
def pilotNextFlightStep (s : Sys) : Option Sys :=
  match s.readyToFlight with
  | 0 => none
  | r + 1 =>
      some { s with readyToFlight := r,
                    fSt := { s.fSt with nPassInFlight := 0,
                                        nFlight := s.fSt.nFlight + 1 },
                    readyForBoarding := s.readyForBoarding + 1 }

/-- Actors that can take the next atomic step. -/
inductive Act where
  | hostess
  | passengerArrive
  | passengerShowId
  | pilotNextFlight
  deriving DecidableEq, Repr

/-- Dispatch one step of the chosen actor. -/
def doStep (cfg : Config) (a : Act) (s : Sys) : Option Sys :=
  match a with
  | .hostess => hostessStep cfg s
  | .passengerArrive => passengerArriveStep s
  | .passengerShowId => passengerShowIdStep s
  | .pilotNextFlight => pilotNextFlightStep s

/-- Run a schedule of actor steps from a state; `none` as soon as a
scheduled actor is blocked. -/
def runFrom (cfg : Config) (acts : List Act) (s : Sys) : Option Sys :=
  match acts with
  | [] => some s
  | a :: rest =>
      match doStep cfg a s with
      | none => none
      | some s2 => runFrom cfg rest s2

/-- Initial system state: zeroed counters, flight ordinal 1, hostess at
its loop test with `nPassengers = 0`.  Modelled from the spec: the
shared region is zero-initialised with phase `WAIT_FOR_FLIGHT`, and the
pilot's boarding authorisation for the first flight is taken as already
raised (`readyForBoarding = 1`). -/
def initSys : Sys :=
  { fSt := { hostessStat := .WAIT_FOR_FLIGHT
             nPassInQueue := 0
             nPassInFlight := 0
             totalPassBoarded := 0
             nFlight := 1
             nPassengersInFlight := fun _ => 0
             finished := false }
    readyForBoarding := 1
    passengersInQueue := 0
    passengersWaitInQueue := 0
    idShown := 0
    readyToFlight := 0
    loc := .atOuterTest
    nPassengers := 0
    checkCount := 0
    finishedWrites := [] }

/-- States reachable from the initial state under some interleaving. -/
def Reachable (cfg : Config) (s : Sys) : Prop :=
  ∃ acts : List Act, runFrom cfg acts initSys = some s

/-- Rendezvous token contributed by the hostess control location: 1 while
the hostess is boarding a flight (between consuming `readyForBoarding`
and raising `readyToFlight`), 0 otherwise. -/
def boardingTok (l : HLoc) : Nat :=
  match l with
  | .atOuterTest => 0
  | .blockedBoardingAuth => 0
  | .done => 0
  | _ => 1

@[simp]
theorem checkPassportCS2_stat (cfg : Config) (s : FSt) :
    (checkPassportCS2 cfg s).1.hostessStat = s.hostessStat := rfl

@[simp]
theorem checkPassportCS2_queue (cfg : Config) (s : FSt) :
    (checkPassportCS2 cfg s).1.nPassInQueue = s.nPassInQueue - 1 := rfl

@[simp]
theorem checkPassportCS2_flight (cfg : Config) (s : FSt) :
    (checkPassportCS2 cfg s).1.nPassInFlight = s.nPassInFlight + 1 := rfl

@[simp]
theorem checkPassportCS2_total (cfg : Config) (s : FSt) :
    (checkPassportCS2 cfg s).1.totalPassBoarded = s.totalPassBoarded + 1 := rfl

@[simp]
theorem checkPassportCS2_nFlight (cfg : Config) (s : FSt) :
    (checkPassportCS2 cfg s).1.nFlight = s.nFlight := rfl

@[simp]
theorem checkPassportCS2_arr (cfg : Config) (s : FSt) :
    (checkPassportCS2 cfg s).1.nPassengersInFlight = s.nPassengersInFlight := rfl

@[simp]
theorem checkPassportCS2_finished (cfg : Config) (s : FSt) :
    (checkPassportCS2 cfg s).1.finished = s.finished := rfl

/-- The `last` flag computed by `checkPassport`, written over the
pre-state fields. -/
theorem checkPassportCS2_last (cfg : Config) (s : FSt) :
    (checkPassportCS2 cfg s).2 =
      ((s.nPassInFlight + 1 == cfg.MAXFC)
        || (decide (cfg.MINFC ≤ s.nPassInFlight + 1) && (s.nPassInQueue - 1 == 0))
        || (s.totalPassBoarded + 1 == cfg.N)) := rfl

/-- When `checkPassport` reports the flight not yet complete, the new
total is not `N`. -/
theorem checkPassportCS2_false_total (cfg : Config) (s : FSt)
    (h : (checkPassportCS2 cfg s).2 = false) :
    s.totalPassBoarded + 1 ≠ cfg.N := by
  intro he
  rw [checkPassportCS2_last] at h
  simp [he] at h

@[simp]
theorem signalReadyToFlightCS_stat (cfg : Config) (s : FSt) :
    (signalReadyToFlightCS cfg s).hostessStat = .READY_TO_FLIGHT := rfl

@[simp]
theorem signalReadyToFlightCS_queue (cfg : Config) (s : FSt) :
    (signalReadyToFlightCS cfg s).nPassInQueue = s.nPassInQueue := rfl

@[simp]
theorem signalReadyToFlightCS_flight (cfg : Config) (s : FSt) :
    (signalReadyToFlightCS cfg s).nPassInFlight = s.nPassInFlight := rfl

@[simp]
theorem signalReadyToFlightCS_total (cfg : Config) (s : FSt) :
    (signalReadyToFlightCS cfg s).totalPassBoarded = s.totalPassBoarded := rfl

@[simp]
theorem signalReadyToFlightCS_nFlight (cfg : Config) (s : FSt) :
    (signalReadyToFlightCS cfg s).nFlight = s.nFlight := rfl

@[simp]
theorem signalReadyToFlightCS_arr (cfg : Config) (s : FSt) :
    (signalReadyToFlightCS cfg s).nPassengersInFlight =
      Function.update s.nPassengersInFlight (s.nFlight - 1) s.nPassInFlight := rfl

@[simp]
theorem signalReadyToFlightCS_finished (cfg : Config) (s : FSt) :
    (signalReadyToFlightCS cfg s).finished = (s.totalPassBoarded == cfg.N) := rfl

/-- Protocol invariant, proved to hold at every reachable state (hence
at every moment the hostess does not hold the lock). -/
structure SysInv (cfg : Config) (s : Sys) : Prop where
  total_nPass : s.fSt.totalPassBoarded = s.nPassengers
  total_count : s.fSt.totalPassBoarded = (s.checkCount : Int)
  total_le : s.fSt.totalPassBoarded ≤ cfg.N
  boarding_lt :
    s.loc = .blockedBoardingAuth ∨ s.loc = .atWaitForPassenger
      ∨ s.loc = .blockedPassengerArrive ∨ s.loc = .atCheckPassportCS1
      ∨ s.loc = .blockedIdShown ∨ s.loc = .atCheckPassportCS2 →
    s.fSt.totalPassBoarded < cfg.N
  nFlight_pos : 1 ≤ s.fSt.nFlight
  conservation :
    (Finset.range ((s.fSt.nFlight - 1).toNat)).sum
        (fun i => s.fSt.nPassengersInFlight (i : Int))
      + s.fSt.nPassInFlight = s.fSt.totalPassBoarded
  recorded :
    1 ≤ s.readyToFlight →
    s.fSt.nPassengersInFlight (s.fSt.nFlight - 1) = s.fSt.nPassInFlight
  token : s.readyForBoarding + s.readyToFlight + boardingTok s.loc = 1
  outer_phase :
    s.loc = .atOuterTest → cfg.N ≤ s.fSt.totalPassBoarded →
    s.fSt.hostessStat = .READY_TO_FLIGHT
  done_phase :
    s.loc = .done →
    s.fSt.hostessStat = .READY_TO_FLIGHT ∧ s.fSt.totalPassBoarded = cfg.N
  finished_total : s.fSt.finished = true → s.fSt.totalPassBoarded = cfg.N

/-- The invariant holds initially (for a positive passenger count). -/
theorem inv_init (cfg : Config) (hN : 0 < cfg.N) : SysInv cfg initSys where
  total_nPass := rfl
  total_count := rfl
  total_le := by simp [initSys]; omega
  boarding_lt := by intro h; rcases h with h | h | h | h | h | h <;> simp [initSys] at h
  nFlight_pos := by simp [initSys]
  conservation := by simp [initSys]
  recorded := by intro h; simp [initSys] at h
  token := rfl
  outer_phase := by
    intro _ h2
    simp [initSys] at h2
    omega
  done_phase := by intro h; simp [initSys] at h
  finished_total := by intro h; simp [initSys] at h

/-- Each step of any actor preserves the protocol invariant. -/
theorem inv_preserved (cfg : Config) (a : Act) (s s2 : Sys)
    (h : doStep cfg a s = some s2) (hi : SysInv cfg s) : SysInv cfg s2 := by
  cases a with
  | passengerArrive =>
      simp only [doStep, passengerArriveStep, Option.some.injEq] at h
      subst h
      exact { total_nPass := hi.total_nPass
              total_count := hi.total_count
              total_le := hi.total_le
              boarding_lt := hi.boarding_lt
              nFlight_pos := hi.nFlight_pos
              conservation := hi.conservation
              recorded := hi.recorded
              token := hi.token
              outer_phase := hi.outer_phase
              done_phase := hi.done_phase
              finished_total := hi.finished_total }
  | passengerShowId =>
      simp only [doStep, passengerShowIdStep] at h
      cases hp : s.passengersWaitInQueue with
      | zero => simp [hp] at h
      | succ r =>
          simp only [hp, Option.some.injEq] at h
          subst h
          exact { total_nPass := hi.total_nPass
                  total_count := hi.total_count
                  total_le := hi.total_le
                  boarding_lt := hi.boarding_lt
                  nFlight_pos := hi.nFlight_pos
                  conservation := hi.conservation
                  recorded := hi.recorded
                  token := hi.token
                  outer_phase := hi.outer_phase
                  done_phase := hi.done_phase
                  finished_total := hi.finished_total }
  | pilotNextFlight =>
      simp only [doStep, pilotNextFlightStep] at h
      cases hr : s.readyToFlight with
      | zero => simp [hr] at h
      | succ r =>
          simp only [hr, Option.some.injEq] at h
          subst h
          have hrec := hi.recorded (by omega)
          have htok := hi.token
          have hcons := hi.conservation
          have hpos := hi.nFlight_pos
          exact { total_nPass := hi.total_nPass
                  total_count := hi.total_count
                  total_le := hi.total_le
                  boarding_lt := hi.boarding_lt
                  nFlight_pos := by
                    show 1 ≤ s.fSt.nFlight + 1
                    omega
                  conservation := by
                    show (Finset.range ((s.fSt.nFlight + 1 - 1).toNat)).sum
                          (fun i => s.fSt.nPassengersInFlight (i : Int))
                        + (0 : Int) = s.fSt.totalPassBoarded
                    have h1 : (s.fSt.nFlight + 1 - 1).toNat
                        = (s.fSt.nFlight - 1).toNat + 1 := by omega
                    have h2 : (((s.fSt.nFlight - 1).toNat : Nat) : Int)
                        = s.fSt.nFlight - 1 := by omega
                    rw [h1, Finset.sum_range_succ, h2, hrec]
                    omega
                  recorded := by
                    intro h3
                    replace h3 : 1 ≤ r := h3
                    exfalso
                    rw [hr] at htok
                    omega
                  token := by
                    show s.readyForBoarding + 1 + r + boardingTok s.loc = 1
                    rw [hr] at htok
                    omega
                  outer_phase := hi.outer_phase
                  done_phase := hi.done_phase
                  finished_total := hi.finished_total }
  | hostess =>
      simp only [doStep] at h
      cases hl : s.loc with
      | atOuterTest =>
          simp only [hostessStep, hl] at h
          by_cases hn : s.nPassengers < cfg.N
          · rw [if_pos hn, Option.some.injEq] at h
            subst h
            have h1 := hi.total_nPass
            have ht := hi.token
            rw [hl] at ht
            exact { total_nPass := hi.total_nPass
                    total_count := hi.total_count
                    total_le := hi.total_le
                    boarding_lt := by
                      intro _
                      show s.fSt.totalPassBoarded < cfg.N
                      omega
                    nFlight_pos := hi.nFlight_pos
                    conservation := hi.conservation
                    recorded := hi.recorded
                    token := by
                      show s.readyForBoarding + s.readyToFlight
                          + boardingTok .blockedBoardingAuth = 1
                      simp only [boardingTok] at ht ⊢
                      omega
                    outer_phase := by intro h3; simp at h3
                    done_phase := by intro h3; simp at h3
                    finished_total := hi.finished_total }
          · rw [if_neg hn, Option.some.injEq] at h
            subst h
            have h1 := hi.total_nPass
            have h2 := hi.total_le
            have ht := hi.token
            rw [hl] at ht
            exact { total_nPass := hi.total_nPass
                    total_count := hi.total_count
                    total_le := hi.total_le
                    boarding_lt := by
                      intro h3
                      rcases h3 with h3 | h3 | h3 | h3 | h3 | h3 <;> simp at h3
                    nFlight_pos := hi.nFlight_pos
                    conservation := hi.conservation
                    recorded := hi.recorded
                    token := by
                      show s.readyForBoarding + s.readyToFlight
                          + boardingTok .done = 1
                      simp only [boardingTok] at ht ⊢
                      omega
                    outer_phase := by intro h3; simp at h3
                    done_phase := by
                      intro _
                      exact ⟨hi.outer_phase hl (by omega), by
                        show s.fSt.totalPassBoarded = cfg.N
                        omega⟩
                    finished_total := hi.finished_total }
      | blockedBoardingAuth =>
          simp only [hostessStep, hl] at h
          cases hr2 : s.readyForBoarding with
          | zero => simp [hr2] at h
          | succ r =>
              simp only [hr2, Option.some.injEq] at h
              subst h
              have ht := hi.token
              rw [hl, hr2] at ht
              exact { total_nPass := hi.total_nPass
                      total_count := hi.total_count
                      total_le := hi.total_le
                      boarding_lt := by
                        intro _
                        exact hi.boarding_lt (Or.inl hl)
                      nFlight_pos := hi.nFlight_pos
                      conservation := hi.conservation
                      recorded := hi.recorded
                      token := by
                        show r + s.readyToFlight
                            + boardingTok .atWaitForPassenger = 1
                        simp only [boardingTok] at ht ⊢
                        omega
                      outer_phase := by intro h3; simp at h3
                      done_phase := by intro h3; simp at h3
                      finished_total := hi.finished_total }
      | atWaitForPassenger =>
          simp only [hostessStep, hl, Option.some.injEq] at h
          subst h
          have ht := hi.token
          rw [hl] at ht
          exact { total_nPass := hi.total_nPass
                  total_count := hi.total_count
                  total_le := hi.total_le
                  boarding_lt := by
                    intro _
                    exact hi.boarding_lt (Or.inr (Or.inl hl))
                  nFlight_pos := hi.nFlight_pos
                  conservation := hi.conservation
                  recorded := hi.recorded
                  token := by
                    show s.readyForBoarding + s.readyToFlight
                        + boardingTok .blockedPassengerArrive = 1
                    simp only [boardingTok] at ht ⊢
                    omega
                  outer_phase := by intro h3; simp at h3
                  done_phase := by intro h3; simp at h3
                  finished_total := hi.finished_total }
      | blockedPassengerArrive =>
          simp only [hostessStep, hl] at h
          cases hp : s.passengersInQueue with
          | zero => simp [hp] at h
          | succ r =>
              simp only [hp, Option.some.injEq] at h
              subst h
              have ht := hi.token
              rw [hl] at ht
              exact { total_nPass := hi.total_nPass
                      total_count := hi.total_count
                      total_le := hi.total_le
                      boarding_lt := by
                        intro _
                        exact hi.boarding_lt (Or.inr (Or.inr (Or.inl hl)))
                      nFlight_pos := hi.nFlight_pos
                      conservation := hi.conservation
                      recorded := hi.recorded
                      token := by
                        show s.readyForBoarding + s.readyToFlight
                            + boardingTok .atCheckPassportCS1 = 1
                        simp only [boardingTok] at ht ⊢
                        omega
                      outer_phase := by intro h3; simp at h3
                      done_phase := by intro h3; simp at h3
                      finished_total := hi.finished_total }
      | atCheckPassportCS1 =>
          simp only [hostessStep, hl, Option.some.injEq] at h
          subst h
          have ht := hi.token
          rw [hl] at ht
          exact { total_nPass := hi.total_nPass
                  total_count := hi.total_count
                  total_le := hi.total_le
                  boarding_lt := by
                    intro _
                    exact hi.boarding_lt (Or.inr (Or.inr (Or.inr (Or.inl hl))))
                  nFlight_pos := hi.nFlight_pos
                  conservation := hi.conservation
                  recorded := hi.recorded
                  token := by
                    show s.readyForBoarding + s.readyToFlight
                        + boardingTok .blockedIdShown = 1
                    simp only [boardingTok] at ht ⊢
                    omega
                  outer_phase := by intro h3; simp at h3
                  done_phase := by intro h3; simp at h3
                  finished_total := hi.finished_total }
      | blockedIdShown =>
          simp only [hostessStep, hl] at h
          cases hp : s.idShown with
          | zero => simp [hp] at h
          | succ r =>
              simp only [hp, Option.some.injEq] at h
              subst h
              have ht := hi.token
              rw [hl] at ht
              exact { total_nPass := hi.total_nPass
                      total_count := hi.total_count
                      total_le := hi.total_le
                      boarding_lt := by
                        intro _
                        exact hi.boarding_lt
                          (Or.inr (Or.inr (Or.inr (Or.inr (Or.inl hl)))))
                      nFlight_pos := hi.nFlight_pos
                      conservation := hi.conservation
                      recorded := hi.recorded
                      token := by
                        show s.readyForBoarding + s.readyToFlight
                            + boardingTok .atCheckPassportCS2 = 1
                        simp only [boardingTok] at ht ⊢
                        omega
                      outer_phase := by intro h3; simp at h3
                      done_phase := by intro h3; simp at h3
                      finished_total := hi.finished_total }
      | atCheckPassportCS2 =>
          simp only [hostessStep, hl] at h
          have hlt : s.fSt.totalPassBoarded < cfg.N :=
            hi.boarding_lt (Or.inr (Or.inr (Or.inr (Or.inr (Or.inr hl)))))
          have h1 := hi.total_nPass
          have h2 := hi.total_count
          have hcons := hi.conservation
          have ht := hi.token
          rw [hl] at ht
          cases hb : (checkPassportCS2 cfg s.fSt).2 with
          | true =>
              rw [if_pos hb, Option.some.injEq] at h
              subst h
              exact { total_nPass := by
                        show s.fSt.totalPassBoarded + 1 = s.nPassengers + 1
                        omega
                      total_count := by
                        show s.fSt.totalPassBoarded + 1 = ((s.checkCount + 1 : Nat) : Int)
                        push_cast
                        omega
                      total_le := by
                        show s.fSt.totalPassBoarded + 1 ≤ cfg.N
                        omega
                      boarding_lt := by
                        intro h3
                        rcases h3 with h3 | h3 | h3 | h3 | h3 | h3 <;> simp at h3
                      nFlight_pos := hi.nFlight_pos
                      conservation := by
                        show (Finset.range ((s.fSt.nFlight - 1).toNat)).sum
                              (fun i => s.fSt.nPassengersInFlight (i : Int))
                            + (s.fSt.nPassInFlight + 1)
                            = s.fSt.totalPassBoarded + 1
                        omega
                      recorded := by
                        intro h3
                        replace h3 : 1 ≤ s.readyToFlight := h3
                        exfalso
                        simp only [boardingTok] at ht
                        omega
                      token := by
                        show s.readyForBoarding + s.readyToFlight
                            + boardingTok .atSignalReady = 1
                        simp only [boardingTok] at ht ⊢
                        omega
                      outer_phase := by intro h3; simp at h3
                      done_phase := by intro h3; simp at h3
                      finished_total := by
                        intro hf
                        replace hf : s.fSt.finished = true := hf
                        have h4 := hi.finished_total hf
                        show s.fSt.totalPassBoarded + 1 = cfg.N
                        omega }
          | false =>
              have hcnd : ¬((checkPassportCS2 cfg s.fSt).2 = true) := by
                rw [hb]; exact Bool.false_ne_true
              rw [if_neg hcnd, Option.some.injEq] at h
              subst h
              have h5 := checkPassportCS2_false_total cfg s.fSt hb
              exact { total_nPass := by
                        show s.fSt.totalPassBoarded + 1 = s.nPassengers + 1
                        omega
                      total_count := by
                        show s.fSt.totalPassBoarded + 1 = ((s.checkCount + 1 : Nat) : Int)
                        push_cast
                        omega
                      total_le := by
                        show s.fSt.totalPassBoarded + 1 ≤ cfg.N
                        omega
                      boarding_lt := by
                        intro _
                        show s.fSt.totalPassBoarded + 1 < cfg.N
                        omega
                      nFlight_pos := hi.nFlight_pos
                      conservation := by
                        show (Finset.range ((s.fSt.nFlight - 1).toNat)).sum
                              (fun i => s.fSt.nPassengersInFlight (i : Int))
                            + (s.fSt.nPassInFlight + 1)
                            = s.fSt.totalPassBoarded + 1
                        omega
                      recorded := by
                        intro h3
                        replace h3 : 1 ≤ s.readyToFlight := h3
                        exfalso
                        simp only [boardingTok] at ht
                        omega
                      token := by
                        show s.readyForBoarding + s.readyToFlight
                            + boardingTok .atWaitForPassenger = 1
                        simp only [boardingTok] at ht ⊢
                        omega
                      outer_phase := by intro h3; simp at h3
                      done_phase := by intro h3; simp at h3
                      finished_total := by
                        intro hf
                        replace hf : s.fSt.finished = true := hf
                        have h4 := hi.finished_total hf
                        show s.fSt.totalPassBoarded + 1 = cfg.N
                        omega }
      | atSignalReady =>
          simp only [hostessStep, hl, Option.some.injEq] at h
          subst h
          have ht := hi.token
          rw [hl] at ht
          exact { total_nPass := hi.total_nPass
                  total_count := hi.total_count
                  total_le := hi.total_le
                  boarding_lt := by
                    intro h3
                    rcases h3 with h3 | h3 | h3 | h3 | h3 | h3 <;> simp at h3
                  nFlight_pos := hi.nFlight_pos
                  conservation := by
                    show (Finset.range ((s.fSt.nFlight - 1).toNat)).sum
                          (fun i => Function.update s.fSt.nPassengersInFlight
                            (s.fSt.nFlight - 1) s.fSt.nPassInFlight (i : Int))
                        + s.fSt.nPassInFlight = s.fSt.totalPassBoarded
                    have hs : ∀ i ∈ Finset.range ((s.fSt.nFlight - 1).toNat),
                        Function.update s.fSt.nPassengersInFlight
                          (s.fSt.nFlight - 1) s.fSt.nPassInFlight (i : Int)
                        = s.fSt.nPassengersInFlight (i : Int) := by
                      intro i hi2
                      apply Function.update_noteq
                      have h6 := Finset.mem_range.mp hi2
                      omega
                    rw [Finset.sum_congr rfl hs]
                    exact hi.conservation
                  recorded := by
                    intro _
                    exact Function.update_same _ _ _
                  token := by
                    show s.readyForBoarding + (s.readyToFlight + 1)
                        + boardingTok .atOuterTest = 1
                    simp only [boardingTok] at ht ⊢
                    omega
                  outer_phase := fun _ _ => rfl
                  done_phase := by intro h3; simp at h3
                  finished_total := by
                    intro hf
                    replace hf : (s.fSt.totalPassBoarded == cfg.N) = true := hf
                    show s.fSt.totalPassBoarded = cfg.N
                    exact beq_iff_eq.mp hf }
      | done =>
          simp [hostessStep, hl] at h

/-- Running any schedule from an invariant state lands in an invariant
state. -/
theorem runFrom_inv (cfg : Config) (acts : List Act) (s s2 : Sys)
    (hi : SysInv cfg s) (h : runFrom cfg acts s = some s2) : SysInv cfg s2 := by
  induction acts generalizing s with
  | nil =>
      simp only [runFrom, Option.some.injEq] at h
      subst h
      exact hi
  | cons a rest ih =>
      simp only [runFrom] at h
      cases hstep : doStep cfg a s with
      | none => simp [hstep] at h
      | some s1 =>
          rw [hstep] at h
          exact ih s1 (inv_preserved cfg a s s1 hstep hi) h

/-- The protocol invariant holds at every reachable state. -/
theorem reachable_inv (cfg : Config) (hN : 0 < cfg.N) (s : Sys)
    (h : Reachable cfg s) : SysInv cfg s := by
  obtain ⟨acts, hr⟩ := h
  exact runFrom_inv cfg acts initSys s (inv_init cfg hN) hr

/-- Claim C5: at every reachable state — in particular at every moment
the hostess releases the lock — the sum of the recorded per-flight
entries of the completed flights (array indices `0 … nFlight-2`) plus
`nPassInFlight` equals `totalPassBoarded`, and `totalPassBoarded ≤ N`;
the external actors are modelled as only incrementing the queue and
performing the between-flight reset of `nPassInFlight` and advance of
`nFlight`. -/
theorem conservation_invariant (cfg : Config) (hN : 0 < cfg.N) (s : Sys)
    (hr : Reachable cfg s) :
    (Finset.range ((s.fSt.nFlight - 1).toNat)).sum
        (fun i => s.fSt.nPassengersInFlight (i : Int))
      + s.fSt.nPassInFlight = s.fSt.totalPassBoarded
    ∧ s.fSt.totalPassBoarded ≤ cfg.N :=
  ⟨(reachable_inv cfg hN s hr).conservation,
   (reachable_inv cfg hN s hr).total_le⟩

/-- Claim C3: with `totalPassBoarded` starting at 0 and incremented only
by the hostess's `checkPassport` (once per call), (a) whenever the
hostess has exited its outer loop, exactly `N` `checkPassport` calls
have completed, the hostess phase is `READY_TO_FLIGHT` — the exit
follows the `signalReadyToFlight` of the flight on which the N-th
passenger boarded — and `totalPassBoarded = N`; (b) at the loop test the
next hostess step exits precisely when `totalPassBoarded = N`; (c) after
the N-th completed call the hostess can only be at the
signal-ready/loop-test/exit locations, none of which blocks, so the loop
terminates after exactly `N` calls. -/
theorem hostess_loop_exit (cfg : Config) (hN : 0 < cfg.N) (s : Sys)
    (hr : Reachable cfg s) :
    (s.loc = .done →
      ((s.checkCount : Int) = cfg.N ∧ s.fSt.hostessStat = .READY_TO_FLIGHT
        ∧ s.fSt.totalPassBoarded = cfg.N))
    ∧ (s.loc = .atOuterTest →
        ((hostessStep cfg s).map Sys.loc = some .done
          ↔ s.fSt.totalPassBoarded = cfg.N))
    ∧ ((s.checkCount : Int) = cfg.N →
        s.loc = .atSignalReady ∨ s.loc = .atOuterTest ∨ s.loc = .done) := by
  have hi := reachable_inv cfg hN s hr
  refine ⟨?_, ?_, ?_⟩
  · intro hd
    have hd2 := hi.done_phase hd
    have hc := hi.total_count
    exact ⟨by omega, hd2.1, hd2.2⟩
  · intro ho
    have h1 := hi.total_nPass
    have h2 := hi.total_le
    constructor
    · intro hm
      by_cases hn : s.nPassengers < cfg.N
      · exfalso
        simp only [hostessStep, ho, if_pos hn, Option.map_some'] at hm
        simp at hm
      · omega
    · intro he
      have hn : ¬ s.nPassengers < cfg.N := by omega
      simp only [hostessStep, ho, if_neg hn, Option.map_some']
  · intro hc
    have h2 := hi.total_count
    cases hl : s.loc with
    | atOuterTest => exact Or.inr (Or.inl rfl)
    | atSignalReady => exact Or.inl rfl
    | done => exact Or.inr (Or.inr rfl)
    | blockedBoardingAuth =>
        exact absurd (hi.boarding_lt (Or.inl hl)) (by omega)
    | atWaitForPassenger =>
        exact absurd (hi.boarding_lt (Or.inr (Or.inl hl))) (by omega)
    | blockedPassengerArrive =>
        exact absurd (hi.boarding_lt (Or.inr (Or.inr (Or.inl hl)))) (by omega)
    | atCheckPassportCS1 =>
        exact absurd (hi.boarding_lt (Or.inr (Or.inr (Or.inr (Or.inl hl)))))
          (by omega)
    | blockedIdShown =>
        exact absurd
          (hi.boarding_lt (Or.inr (Or.inr (Or.inr (Or.inr (Or.inl hl))))))
          (by omega)
    | atCheckPassportCS2 =>
        exact absurd
          (hi.boarding_lt (Or.inr (Or.inr (Or.inr (Or.inr (Or.inr hl))))))
          (by omega)

/-- Schedule boarding one passenger, starting with the hostess at
`atWaitForPassenger` with the passenger already in the queue: hostess
critical section, queue-channel consume, passport critical section 1,
passenger shows id, id-channel consume, passport critical section 2. -/
def boardOneActs : List Act :=
  [.hostess, .hostess, .hostess, .passengerShowId, .hostess, .hostess]

/-- Flight 1 of the concrete scenario: 5 passengers arrive and board, the
5th check reports the flight full (MAXFC). -/
def flight1Acts : List Act :=
  List.replicate 5 .passengerArrive ++ [.hostess, .hostess]
    ++ boardOneActs ++ boardOneActs ++ boardOneActs ++ boardOneActs
    ++ boardOneActs ++ [.hostess]

/-- Flight 2 of the concrete scenario: 3 passengers arrive and board, the
3rd check sees count 3 ≥ MINFC with an empty queue. -/
def flight2Acts : List Act :=
  List.replicate 3 .passengerArrive ++ [.hostess, .hostess]
    ++ boardOneActs ++ boardOneActs ++ boardOneActs ++ [.hostess]

/-- Flight 3 of the concrete scenario: the last 2 passengers arrive and
board, the 2nd check sees totalPassBoarded = 10 = N. -/
def flight3Acts : List Act :=
  List.replicate 2 .passengerArrive ++ [.hostess, .hostess]
    ++ boardOneActs ++ boardOneActs ++ [.hostess]

/-- The whole concrete scenario N=10, MINFC=3, MAXFC=5 up to (and
including) the third flight's `signalReadyToFlight`. -/
def scenarioPreActs : List Act :=
  flight1Acts ++ [.pilotNextFlight] ++ flight2Acts ++ [.pilotNextFlight]
    ++ flight3Acts

/-- The whole concrete scenario, ending with the hostess's loop exit. -/
def scenarioActs : List Act :=
  scenarioPreActs ++ [.hostess]

/-- State reached by the concrete scenario right after the third
flight's `signalReadyToFlight`. -/
def sScenarioEnd : Sys :=
  { fSt := { hostessStat := .READY_TO_FLIGHT
             nPassInQueue := 0
             nPassInFlight := 2
             totalPassBoarded := 10
             nFlight := 3
             nPassengersInFlight :=
               Function.update
                 (Function.update (Function.update (fun _ => 0) 0 5) 1 3) 2 2
             finished := true }
    readyForBoarding := 0
    passengersInQueue := 0
    passengersWaitInQueue := 0
    idShown := 0
    readyToFlight := 1
    loc := .atOuterTest
    nPassengers := 10
    checkCount := 10
    finishedWrites := [(5, false), (8, false), (10, true)] }

/-- State reached by the concrete scenario at loop exit. -/
def sScenarioDone : Sys :=
  { sScenarioEnd with loc := .done }

theorem runFrom_scenarioPre :
    runFrom cfg10 scenarioPreActs initSys = some sScenarioEnd := rfl

theorem runFrom_scenario :
    runFrom cfg10 scenarioActs initSys = some sScenarioDone := rfl

/-- Claim C6 counterexample: in the concrete scenario N=10, MINFC=3,
MAXFC=5, the `finished` flag is written three times — once per
`signalReadyToFlight`, i.e. once per flight, not exactly once — and the
first two writes happen while `totalPassBoarded` is 5 and 8 (different
from N) and store the value `false`; so the flag is not written exactly
once, is written at moments where `totalPassBoarded ≠ N`, and does not
become true at each write. -/
theorem finished_writes_cex :
    (runFrom cfg10 scenarioActs initSys).map Sys.finishedWrites
      = some [(5, false), (8, false), (10, true)] := rfl

/-- Claim C6 as amended: `finished` is assigned at every
`signalReadyToFlight` — once per flight, not once per execution — each
time with the value of the test `totalPassBoarded == N` at that moment;
consequently at any reachable state `finished = true` implies
`totalPassBoarded = N` (the flag becomes true exactly at the final
flight's write), and once true it is never reset: any further step of
any actor keeps it true. -/
theorem finished_write_semantics (cfg : Config) (hN : 0 < cfg.N)
    (s s2 : Sys) (a : Act) (hr : Reachable cfg s)
    (hstep : doStep cfg a s = some s2) :
    (s.fSt.finished = true → s.fSt.totalPassBoarded = cfg.N)
    ∧ (s.fSt.finished = true → s2.fSt.finished = true) := by
  have hi := reachable_inv cfg hN s hr
  refine ⟨hi.finished_total, ?_⟩
  intro hf
  have htot := hi.finished_total hf
  cases a with
  | passengerArrive =>
      simp only [doStep, passengerArriveStep, Option.some.injEq] at hstep
      subst hstep
      exact hf
  | passengerShowId =>
      simp only [doStep, passengerShowIdStep] at hstep
      cases hp : s.passengersWaitInQueue with
      | zero => simp [hp] at hstep
      | succ r =>
          simp only [hp, Option.some.injEq] at hstep
          subst hstep
          exact hf
  | pilotNextFlight =>
      simp only [doStep, pilotNextFlightStep] at hstep
      cases hp : s.readyToFlight with
      | zero => simp [hp] at hstep
      | succ r =>
          simp only [hp, Option.some.injEq] at hstep
          subst hstep
          exact hf
  | hostess =>
      simp only [doStep] at hstep
      cases hl : s.loc with
      | atOuterTest =>
          simp only [hostessStep, hl] at hstep
          by_cases hn : s.nPassengers < cfg.N
          · rw [if_pos hn, Option.some.injEq] at hstep
            subst hstep
            exact hf
          · rw [if_neg hn, Option.some.injEq] at hstep
            subst hstep
            exact hf
      | blockedBoardingAuth =>
          simp only [hostessStep, hl] at hstep
          cases hp : s.readyForBoarding with
          | zero => simp [hp] at hstep
          | succ r =>
              simp only [hp, Option.some.injEq] at hstep
              subst hstep
              exact hf
      | atWaitForPassenger =>
          simp only [hostessStep, hl, Option.some.injEq] at hstep
          subst hstep
          exact hf
      | blockedPassengerArrive =>
          simp only [hostessStep, hl] at hstep
          cases hp : s.passengersInQueue with
          | zero => simp [hp] at hstep
          | succ r =>
              simp only [hp, Option.some.injEq] at hstep
              subst hstep
              exact hf
      | atCheckPassportCS1 =>
          simp only [hostessStep, hl, Option.some.injEq] at hstep
          subst hstep
          exact hf
      | blockedIdShown =>
          simp only [hostessStep, hl] at hstep
          cases hp : s.idShown with
          | zero => simp [hp] at hstep
          | succ r =>
              simp only [hp, Option.some.injEq] at hstep
              subst hstep
              exact hf
      | atCheckPassportCS2 =>
          simp only [hostessStep, hl] at hstep
          cases hb : (checkPassportCS2 cfg s.fSt).2 with
          | true =>
              rw [if_pos hb, Option.some.injEq] at hstep
              subst hstep
              exact hf
          | false =>
              have hcnd : ¬((checkPassportCS2 cfg s.fSt).2 = true) := by
                rw [hb]; exact Bool.false_ne_true
              rw [if_neg hcnd, Option.some.injEq] at hstep
              subst hstep
              exact hf
      | atSignalReady =>
          simp only [hostessStep, hl, Option.some.injEq] at hstep
          subst hstep
          show (s.fSt.totalPassBoarded == cfg.N) = true
          simp [htot]
      | done =>
          simp [hostessStep, hl] at hstep

theorem conservation_invariant_witness :
    (0 : Int) < cfg10.N
    ∧ Reachable cfg10 sScenarioEnd
    ∧ ((Finset.range ((sScenarioEnd.fSt.nFlight - 1).toNat)).sum
          (fun i => sScenarioEnd.fSt.nPassengersInFlight (i : Int))
        + sScenarioEnd.fSt.nPassInFlight = sScenarioEnd.fSt.totalPassBoarded
      ∧ sScenarioEnd.fSt.totalPassBoarded ≤ cfg10.N) :=
  ⟨by decide, ⟨scenarioPreActs, rfl⟩,
    conservation_invariant cfg10 (by decide) sScenarioEnd
      ⟨scenarioPreActs, rfl⟩⟩

theorem hostess_loop_exit_witness :
    (0 : Int) < cfg10.N
    ∧ Reachable cfg10 sScenarioDone
    ∧ ((sScenarioDone.loc = .done →
          ((sScenarioDone.checkCount : Int) = cfg10.N
            ∧ sScenarioDone.fSt.hostessStat = .READY_TO_FLIGHT
            ∧ sScenarioDone.fSt.totalPassBoarded = cfg10.N))
      ∧ (sScenarioDone.loc = .atOuterTest →
          ((hostessStep cfg10 sScenarioDone).map Sys.loc = some .done
            ↔ sScenarioDone.fSt.totalPassBoarded = cfg10.N))
      ∧ ((sScenarioDone.checkCount : Int) = cfg10.N →
          sScenarioDone.loc = .atSignalReady
            ∨ sScenarioDone.loc = .atOuterTest
            ∨ sScenarioDone.loc = .done)) :=
  ⟨by decide, ⟨scenarioActs, rfl⟩,
    hostess_loop_exit cfg10 (by decide) sScenarioDone ⟨scenarioActs, rfl⟩⟩

theorem finished_write_semantics_witness :
    (0 : Int) < cfg10.N
    ∧ Reachable cfg10 sScenarioEnd
    ∧ doStep cfg10 .hostess sScenarioEnd = some sScenarioDone
    ∧ ((sScenarioEnd.fSt.finished = true →
          sScenarioEnd.fSt.totalPassBoarded = cfg10.N)
      ∧ (sScenarioEnd.fSt.finished = true →
          sScenarioDone.fSt.finished = true)) :=
  ⟨by decide, ⟨scenarioPreActs, rfl⟩, rfl,
    finished_write_semantics cfg10 (by decide) sScenarioEnd sScenarioDone
      .hostess ⟨scenarioPreActs, rfl⟩ rfl⟩
